import Mathlib

/-!
# Verification of the neodb catalog core

A shallow embedding, in Lean 4, of the engineering core of the neodb
repository: the fetch admission controller and search-result deduplication
pass (`catalog/search/models.py`), the resource-to-item matching algorithm,
resolution engine, crawl orchestrator and site registry
(`catalog/common/sites.py`), and the DoubanBook site adapter's URL scheme
(`catalog/sites/douban_book.py`).

Python dictionaries backed by the django cache are modelled as association
lists with explicit expiry times; django ORM queries are modelled as
`List.find?` over an explicit table; code paths whose bodies live outside
the embedded modules (scraping, schema validation, persistence of a saved
row) are represented by explicit event markers or by function parameters,
so that the control flow of the embedded functions is preserved exactly.
-/

namespace Neodb

/-! ## TTL cache (django `cache.get` / `cache.set`)

An entry is a key together with its absolute expiry time; `cacheSet` at
time `t` with a time-to-live `ttl` stores expiry `t + ttl`, and the most
recent entry for a key shadows older ones.  All values stored by the
embedded code are the constant `1`, so `cacheGet` returns `some 1` for a
live entry and `none` for an absent or expired one. -/

def Cache := List (String × Nat)

def cacheGet (c : Cache) (k : String) (t : Nat) : Option Nat :=
  match c.find? (fun e => e.1 == k) with
  | some e => if t < e.2 then some 1 else none
  | none => none

def cacheSet (c : Cache) (k : String) (ttl : Nat) (t : Nat) : Cache :=
  (k, t + ttl) :: c

/-! ## Fetch admission controller (`catalog/search/models.py`, `get_fetch_lock`) -/

structure FLUser where
  id : Nat
  is_authenticated : Bool

/-- The per-actor cache key: `_fetch_lock:{user.id}` for an authenticated
user, the shared `_fetch_lock` otherwise. -/
def actorKey (user : Option FLUser) : String :=
  match user with
  | some u => if u.is_authenticated then "_fetch_lock:" ++ toString u.id else "_fetch_lock"
  | none => "_fetch_lock"

/-- The per-actor TTL: 1s under `settings.DEBUG`, else 3s authenticated /
15s anonymous. -/
def actorTTL (debug : Bool) (user : Option FLUser) : Nat :=
  match user with
  | some u =>
    if u.is_authenticated then (if debug then 1 else 3) else (if debug then 1 else 15)
  | none => if debug then 1 else 15

/-- The per-URL cache key `_fetch_lock:{url}`. -/
def urlLockKey (url : String) : String := "_fetch_lock:" ++ url

/-- The per-URL TTL: 1s under `settings.DEBUG`, else 7200s. -/
def urlTTL (debug : Bool) : Nat := if debug then 1 else 7200

/-- `get_fetch_lock(user, url)`: test-and-set on the per-actor key, then
test-and-set on the per-URL key; admitted only when both were absent.
Returns the admission decision together with the cache as mutated. -/
def get_fetch_lock (debug : Bool) (user : Option FLUser) (url : String)
    (c : Cache) (t : Nat) : Bool × Cache :=
  if (cacheGet c (actorKey user) t).isSome then (false, c)
  else
    let c₁ := cacheSet c (actorKey user) (actorTTL debug user) t
    if (cacheGet c₁ (urlLockKey url) t).isSome then (false, c₁)
    else (true, cacheSet c₁ (urlLockKey url) (urlTTL debug) t)

/-! ## Job queue and `enqueue_fetch` -/

inductive JobStatus where
  | queued
  | started
  | finished
  | failed
deriving DecidableEq

structure RqJob where
  id : String
  status : JobStatus
deriving DecidableEq

/-- `Job.fetch(...).get_status() in ["queued", "started"]`, with the
surrounding `except` treating an absent job as not in progress. -/
def jobInProgress (q : List RqJob) (jobId : String) : Bool :=
  match q.find? (fun j => j.id == jobId) with
  | some j => j.status == JobStatus.queued || j.status == JobStatus.started
  | none => false

/-- `enqueue_fetch(url, ...)`: the job id is `"fetch_" + md5(url)`; the job
is enqueued only when no job with that id is already queued or started.
`md5hex` abstracts `hashlib.md5(...).hexdigest()`. -/
def enqueue_fetch (md5hex : String → String) (q : List RqJob) (url : String) :
    String × List RqJob :=
  let jobId := "fetch_" ++ md5hex url
  if jobInProgress q jobId then (jobId, q)
  else (jobId, q ++ [⟨jobId, JobStatus.queued⟩])

structure FetchOutcome where
  job : Option String
  cache : Cache
  queue : List RqJob

/-- The admission flow of `catalog/search/views.py::fetch`:
`if is_refetch or get_fetch_lock(request.user, url): job_id = enqueue_fetch(...)`.
Note the short-circuit: a refetch never consults (or sets) the locks. -/
def fetchRequest (md5hex : String → String) (debug : Bool) (user : Option FLUser)
    (url : String) (is_refetch : Bool) (c : Cache) (q : List RqJob) (t : Nat) :
    FetchOutcome :=
  if is_refetch then
    let r := enqueue_fetch md5hex q url
    ⟨some r.1, c, r.2⟩
  else
    match get_fetch_lock debug user url c t with
    | (true, c') =>
      let r := enqueue_fetch md5hex q url
      ⟨some r.1, c', r.2⟩
    | (false, c') => ⟨none, c', q⟩

/-! ## Search results and the deduplication pass
(`catalog/search/models.py`, `query_index`)

An index result item carries exactly the attributes the dedup pass reads:
its primary key (globally unique across all `Item` subtypes, because the
polymorphic `Item` table has a single pk sequence — so django object
equality between catalog items coincides with pk equality), the first
present external identifier among `isbn`/`imdb_code`/`barcode`, the id of
its work grouping when `get_work()` yields one, whether its concrete class
is `TVSeason`, its season's parent-show pk, and the urls of its external
resources. -/

structure SearchItem where
  pk : Nat
  extKey : Option String
  workId : Option Nat
  isTVSeason : Bool
  showId : Option Nat
  resourceUrls : List String
deriving DecidableEq

/-- A dedup key is either an external identifier (a string) or a work id
(an integer); the two Python key spaces are disjoint by type. -/
inductive DedupKey where
  | external (s : String)
  | work (n : Nat)
deriving DecidableEq

/-- `my_key` for one item, in Python dict insertion order: the external
identifier first, then the work id. -/
def myKeys (i : SearchItem) : List DedupKey :=
  (match i.extKey with | some s => [DedupKey.external s] | none => []) ++
  (match i.workId with | some w => [DedupKey.work w] | none => [])

/-- The mutable state of the dedup pass: the `keys` claim table (most
recent binding first), the emitted `items`, the `dupe_to` attachments in
the order they are made (claimant pk, attached duplicate pk), and the
collected external resource urls. -/
structure DedupState where
  keys : List (DedupKey × Nat)
  items : List SearchItem
  dupeTo : List (Nat × Nat)
  urls : List String
deriving DecidableEq

def keysLookup (m : List (DedupKey × Nat)) (k : DedupKey) : Option Nat :=
  (m.find? (fun e => e.1 == k)).map (fun e => e.2)

/-- `for k in my_key: if k in keys: dup_by = keys[k]; break` -/
def firstClaimed (m : List (DedupKey × Nat)) : List DedupKey → Option Nat
  | [] => none
  | k :: rest =>
    match keysLookup m k with
    | some v => some v
    | none => firstClaimed m rest

/-- One iteration of the first dedup loop over `r.items`. -/
def dedupStep (st : DedupState) (i : SearchItem) : DedupState :=
  let ks := myKeys i
  let st' :=
    if ks.isEmpty then { st with items := st.items ++ [i] }
    else
      match firstClaimed st.keys ks with
      | some d =>
        { st with keys := ks.map (fun k => (k, d)) ++ st.keys,
                  dupeTo := st.dupeTo ++ [(d, i.pk)] }
      | none =>
        { st with keys := ks.map (fun k => (k, i.pk)) ++ st.keys,
                  items := st.items ++ [i] }
  { st' with urls := st'.urls ++ i.resourceUrls }

/-- First pass: hide duplicated items by work id / isbn / imdb / barcode. -/
def dedupPass1 (rs : List SearchItem) : DedupState :=
  rs.foldl dedupStep ⟨[], [], [], []⟩

/-- One iteration of the `# hide show if its season exists` loop:
`if season.show in items: season.dupe_to += [season.show]; items.remove(season.show)`. -/
def seasonStep (st : DedupState) (season : SearchItem) : DedupState :=
  match season.showId with
  | none => st
  | some sh =>
    if st.items.any (fun j => j.pk == sh) then
      { st with dupeTo := st.dupeTo ++ [(season.pk, sh)],
                items := st.items.eraseP (fun j => j.pk == sh) }
    else st

/-- Second pass: `seasons = [i for i in items if i.__class__ == TVSeason]`,
then fold each season whose show is present. -/
def seasonPass (st : DedupState) : DedupState :=
  (st.items.filter (fun i => i.isTVSeason)).foldl seasonStep st

/-- Both deduplication passes of `query_index`, applied to the raw ordered
index result items. -/
def queryDedup (rs : List SearchItem) : DedupState :=
  seasonPass (dedupPass1 rs)

/-! ## `query_index` input validation and result shape -/

/-- The `keywords` argument is either a string or a list of category
strings; `len(keywords)` is the string length resp. the list length. -/
inductive Keywords where
  | str (s : String)
  | lst (l : List String)
deriving DecidableEq

def Keywords.size : Keywords → Nat
  | .str s => s.length
  | .lst l => l.length

def Keywords.isStr : Keywords → Bool
  | .str _ => true
  | .lst _ => false

/-- What `CatalogIndex.instance().search(q)` returns: the matched items in
rank order, page count, total count and per-category facets. -/
structure IndexResult where
  items : List SearchItem
  pages : Nat
  total : Nat
  facets : List (String × Nat)

structure QueryOutput where
  items : List SearchItem
  pages : Nat
  total : Nat
  facets : List (String × Nat)
  keywords : Keywords

/-- The early-return value `([], 0, 0, {}, keywords)`. -/
def emptyQueryOutput (kw : Keywords) : QueryOutput := ⟨[], 0, 0, [], kw⟩

/-- `query_index(keywords, page, ...)`.  `parsed` stands for the
`CatalogQueryParser` built from the inputs: `none` when the parser object
is falsy (the second early return), `some qq` with `qq = q.q` otherwise.
The returned `Bool` records whether `index.search` was invoked.  The
`cache.set` for external-search url dedup is a side effect on a collaborator
and is not part of the returned value; the urls it would store are collected
in the dedup state. -/
def query_index (kw : Keywords) (page : Int) (parsed : Option String)
    (index : IndexResult) : QueryOutput × Bool :=
  if page < 1 ∨ page > 99 ∨ (kw.isStr = true ∧ kw.size < 2) ∨ kw.size > 100 then
    (emptyQueryOutput kw, false)
  else
    match parsed with
    | none => (emptyQueryOutput kw, false)
    | some qq =>
      let st := queryDedup index.items
      (⟨st.items, index.pages, index.total, index.facets, Keywords.str qq⟩, true)

/-! ## Data model of `catalog/common/sites.py`

Link descriptors are the `{url?, id_type?, id_value?}` dictionaries stored
in `related_resources` / `prematched_resources` / `required_resources`
(`none` models an absent or falsy entry).  Catalog items carry the fields
the matching algorithm reads; `model` is the concrete `Item` subtype
(`Edition`, `Work`, ...) that `model.objects` filters by. -/

structure LinkDesc where
  url : Option String
  id_type : Option String
  id_value : Option String
deriving DecidableEq

structure CatalogItem where
  pk : Nat
  model : String
  primary_lookup_id_type : Option String
  primary_lookup_id_value : Option String
  merged_to_item : Option Nat
deriving DecidableEq

structure ExternalResource where
  pk : Nat
  url : Option String
  id_type : Option String
  id_value : Option String
  item : Option Nat
  metadata : List (String × String)
  lookup_ids : List (String × String)
  related_resources : List LinkDesc
  prematched_resources : List LinkDesc
  required_resources : List LinkDesc
deriving DecidableEq

/-- The persistent store seen through the ORM: the `ExternalResource` and
`Item` tables, ordered as the default manager would return them, with
`.first()` modelled by `List.find?`. -/
structure Database where
  resources : List ExternalResource
  items : List CatalogItem

def findResourceByUrl (db : Database) (url : String) : Option ExternalResource :=
  db.resources.find? (fun r => r.url == some url)

def findResourceByIdPair (db : Database) (t v : String) : Option ExternalResource :=
  db.resources.find? (fun r => r.id_type == some t && r.id_value == some v)

def findItemByPk (db : Database) (pk : Nat) : Option CatalogItem :=
  db.items.find? (fun m => m.pk == pk)

/-- `model.objects.filter(primary_lookup_id_type=t, primary_lookup_id_value=v).first()`;
the filter values are `Option String` because the fallback query filters by
the resource's own (nullable) id pair. -/
def firstItemByPrimary (db : Database) (model : String) (t v : Option String) :
    Option CatalogItem :=
  db.items.find? (fun m =>
    m.model == model && m.primary_lookup_id_type == t && m.primary_lookup_id_value == v)

/-- `matched.save()`: write the mutated row back, replacing the stored
item with the same pk. -/
def saveItem (db : Database) (m : CatalogItem) : Database :=
  { db with items := db.items.map (fun x => if x.pk = m.pk then m else x) }

/-! ## Matching algorithm (`AbstractSite.match_existing_item_for_resource`) -/

/-- The `prematched_resources` walk: for each descriptor in order, look up
another `ExternalResource` by `url` when present, else by
`(id_type, id_value)` when both present; the first one found that already
owns an item wins (`return matched_resource.item`). -/
def prematchedLookup (db : Database) : List LinkDesc → Option Nat
  | [] => none
  | d :: rest =>
    match d.url with
    | some u =>
      match findResourceByUrl db u with
      | some r =>
        match r.item with
        | some i => some i
        | none => prematchedLookup db rest
      | none => prematchedLookup db rest
    | none =>
      match d.id_type, d.id_value with
      | some t, some v =>
        match findResourceByIdPair db t v with
        | some r =>
          match r.item with
          | some i => some i
          | none => prematchedLookup db rest
        | none => prematchedLookup db rest
      | _, _ => prematchedLookup db rest

/-- One lookup-id candidate: first by `(primary_lookup_id_type=t, v)`, then
falling back to the resource's own `(id_type, id_value)` pair. -/
def lookupCandidate (db : Database) (model : String) (res : ExternalResource)
    (t v : String) : Option CatalogItem :=
  match firstItemByPrimary db model (some t) (some v) with
  | some m => some m
  | none => firstItemByPrimary db model res.id_type res.id_value

/-- `if matched and matched.merged_to_item: matched = matched.merged_to_item`
(one step, not the whole chain).  The FK target always exists in the store;
`getD` only totalizes the model. -/
def derefMerged (db : Database) (m : CatalogItem) : CatalogItem :=
  match m.merged_to_item with
  | some j => (findItemByPk db j).getD m
  | none => m

/-- `x in IdealIdTypes` for a nullable id type (`None in IdealIdTypes` is
false). -/
def optMem (o : Option String) (l : List String) : Bool :=
  match o with
  | some x => l.contains x
  | none => false

/-- The in-place id promotion
`matched.primary_lookup_id_type = t; matched.primary_lookup_id_value = v`. -/
def promote (t v : String) (m : CatalogItem) : CatalogItem :=
  { m with primary_lookup_id_type := some t, primary_lookup_id_value := some v }

/-- The `for t, v in ids` loop of `match_existing_item_for_resource`:
first candidate producing a match wins; a matched item whose primary id
type is not in `ideal` while `t` is gets promoted and saved before being
returned.  `ideal` stands for `IdealIdTypes` (defined in
`catalog/common/models.py`).  Returns the matched item's pk and the store
as mutated. -/
def matchLoop (db : Database) (ideal : List String) (model : String)
    (res : ExternalResource) : List (String × String) → Option Nat × Database
  | [] => (none, db)
  | (t, v) :: rest =>
    match lookupCandidate db model res t v with
    | none => matchLoop db ideal model res rest
    | some m₀ =>
      let m := derefMerged db m₀
      if !optMem m.primary_lookup_id_type ideal && ideal.contains t then
        (some (promote t v m).pk, saveItem db (promote t v m))
      else (some m.pk, db)

/-- `match_existing_item_for_resource(resource)`.  `model` stands for
`resource.get_item_model(cls.DEFAULT_MODEL)` (`none` when falsy) and
`lookupIds` for `resource.get_lookup_ids(cls.DEFAULT_MODEL)`; both live in
`catalog/common/models.py` and are inputs here. -/
def match_existing_item_for_resource (db : Database) (ideal : List String)
    (res : ExternalResource) (model : Option String)
    (lookupIds : List (String × String)) : Option Nat × Database :=
  match prematchedLookup db res.prematched_resources with
  | some i => (some i, db)
  | none =>
    match model with
    | none => (none, db)
    | some md => matchLoop db ideal md res lookupIds

structure MatchOrCreateResult where
  result : Option Nat
  db : Database
  resource : ExternalResource
  logs : List (Nat × String)

/-- The trailing block of `match_or_create_item_for_resource`:
`if previous_item != resource.item: previous_item.log_action({"unmatch"...});
resource.item.log_action({"!match"...}); resource.save(...)`. -/
def finishMatchOrCreate (previous : Option Nat) (res : ExternalResource)
    (db : Database) (i : Nat) : MatchOrCreateResult :=
  if previous = some i then ⟨some i, db, res, []⟩
  else
    ⟨some i, db, res,
      (match previous with | some p => [(p, "unmatch")] | none => []) ++ [(i, "!match")]⟩

/-- The pk django assigns to a freshly created row. -/
def freshPk (db : Database) : Nat := (db.items.map (fun m => m.pk)).foldl max 0 + 1

/-- `match_or_create_item_for_resource(resource)`.  `bestId` stands for
`model.get_best_lookup_id(resource.get_all_lookup_ids())` and the metadata
copied by `model.copy_metadata` does not participate in matching, so a
created item is recorded by its identifying fields only. -/
def match_or_create_item_for_resource (db : Database) (ideal : List String)
    (res : ExternalResource) (model : Option String)
    (lookupIds : List (String × String)) (bestId : String × String) :
    MatchOrCreateResult :=
  let previous := res.item
  let step := match_existing_item_for_resource db ideal res model lookupIds
  let res₁ := { res with item := match step.1 with | some i => some i | none => previous }
  match res₁.item with
  | none =>
    match model with
    | none => ⟨none, step.2, res₁, []⟩
    | some md =>
      let newItem : CatalogItem := ⟨freshPk step.2, md, some bestId.1, some bestId.2, none⟩
      finishMatchOrCreate previous { res₁ with item := some newItem.pk }
        { step.2 with items := step.2.items ++ [newItem] } newItem.pk
  | some i => finishMatchOrCreate previous res₁ step.2 i

/-! ## Resolution engine (`AbstractSite.get_resource_ready`) -/

structure ResourceContent where
  lookup_ids : List (String × String)
  metadata : List (String × String)
  cover_image : Option String
deriving DecidableEq

/-- Modelled from the spec: `ExternalResource.ready` lives in
`catalog/common/models.py`, which is not among the sources; per §3 it is a
"derived boolean — true once metadata has been populated by a successful
scrape". -/
def ExternalResource.ready (r : ExternalResource) : Bool := !r.metadata.isEmpty

/-- Modelled from the spec: `ExternalResource.update_content` lives in
`catalog/common/models.py`, which is not among the sources; per §3 the
resource's `metadata` (and lookup ids) "mirror the last successful
scrape". -/
def update_content (r : ExternalResource) (rc : ResourceContent) : ExternalResource :=
  { r with metadata := rc.metadata, lookup_ids := rc.lookup_ids }

/-- The externally observable actions of `get_resource_ready` after the
readiness guard; their bodies (ORM writes, schema validation, the
recursive linked-resource resolution, the crawl enqueue) belong to
collaborators and are represented as trace markers. -/
inductive GrrEvent where
  | scrapeCall
  | matchOrCreate
  | saveResource
  | mergeItemData
  | validateItem
  | saveItem
  | scrapeAdditional
  | resolveRequired
  | enqueueCrawl
  | updateItemLinks
deriving DecidableEq

/-- A site adapter instance at resolution time: its resource (as returned
by `get_resource`) and what its `scrape()` would produce. -/
structure Site where
  resource : Option ExternalResource
  scrapeResult : ResourceContent

/-- Step 2 of `get_resource_ready`: when the resource is not ready or a
re-scrape is demanded, use the preloaded content if supplied, else
`scrape()`, and update the resource from the result. -/
def grrUpdatedResource (site : Site) (preloaded : Option ResourceContent)
    (ignore_existing : Bool) (p : ExternalResource) : ExternalResource × List GrrEvent :=
  if !p.ready || ignore_existing then
    match preloaded with
    | some rc => (update_content p rc, [])
    | none => (update_content p site.scrapeResult, [GrrEvent.scrapeCall])
  else (p, [])

/-- `get_resource_ready(auto_save, auto_create, auto_link, preloaded_content,
ignore_existing_content)`: cascade the flags, update the resource, fail
with `none` when still not ready, else run match/create, persistence and
link-following, summarized as the event trace. -/
def get_resource_ready (site : Site) (auto_save auto_create auto_link : Bool)
    (preloaded : Option ResourceContent) (ignore_existing : Bool) :
    Option ExternalResource × List GrrEvent :=
  let auto_create := auto_link || auto_create
  let auto_save := auto_create || auto_save
  match site.resource with
  | none => (none, [])
  | some p₀ =>
    let step := grrUpdatedResource site preloaded ignore_existing p₀
    let p := step.1
    if !p.ready then (none, step.2)
    else
      let ev₁ := if auto_create then step.2 ++ [GrrEvent.matchOrCreate] else step.2
      let ev₂ :=
        if auto_save then
          ev₁ ++ [GrrEvent.saveResource] ++
            (if p.item.isSome then
              [GrrEvent.mergeItemData, GrrEvent.validateItem, GrrEvent.saveItem,
               GrrEvent.scrapeAdditional]
            else [])
        else ev₁
      let ev₃ :=
        if auto_link then
          ev₂ ++ p.required_resources.map (fun _ => GrrEvent.resolveRequired) ++
            (if !p.related_resources.isEmpty || !p.prematched_resources.isEmpty then
              [GrrEvent.enqueueCrawl]
            else []) ++
            (if p.item.isSome then [GrrEvent.updateItemLinks] else [])
        else ev₂
      (some p, ev₃)

/-! ## Crawl orchestrator (`crawl_related_resources_task`) -/

/-- The collaborators one crawled link goes through; site handles are
opaque.  `runSite` is `get_resource_ready(...)` followed by `get_item()`
and `mergeData` is `item.merge_data_from_external_resource(res)`; either
may raise, which the per-link `except` catches. -/
structure CrawlEnv where
  getSiteById : String → String → Option Nat
  getSiteByUrl : String → Option Nat
  runSite : Nat → Except String (Option ExternalResource × Option Nat)
  mergeData : Nat → ExternalResource → Except String Unit

/-- The body of the `for w in links` loop (inside its `try`): resolve a
site by id pair when both present, else by url; run it; merge scraped data
into the item when the descriptor is a prematched one. -/
def processLink (env : CrawlEnv) (prematched : List LinkDesc) (w : LinkDesc) :
    Except String (Option Nat) :=
  let site₀ : Option Nat :=
    match w.id_value, w.id_type with
    | some v, some t => env.getSiteById t v
    | _, _ => none
  let site : Option Nat :=
    match site₀ with
    | some s => some s
    | none =>
      match w.url with
      | some u => env.getSiteByUrl u
      | none => none
  match site with
  | none => Except.ok none
  | some s =>
    match env.runSite s with
    | Except.error e => Except.error e
    | Except.ok (res, item) =>
      match item, res with
      | some it, some r =>
        if w ∈ prematched then
          match env.mergeData it r with
          | Except.error e => Except.error e
          | Except.ok _ => Except.ok (some it)
        else Except.ok (some it)
      | _, _ => Except.ok item

inductive CrawlLog where
  | resourceMissing (pk : Nat)
  | crawled (w : LinkDesc)
  | crawlFailed (w : LinkDesc)
  | crawlError (w : LinkDesc)
deriving DecidableEq

/-- What the loop body logs for one link: `crawled` on success with an
item, `crawl ... failed` without one, and `crawl ... error` from the
`except Exception` handler. -/
def linkLog (w : LinkDesc) : Except String (Option Nat) → CrawlLog
  | Except.ok (some _) => CrawlLog.crawled w
  | Except.ok none => CrawlLog.crawlFailed w
  | Except.error _ => CrawlLog.crawlError w

/-- The `for w in links` loop with the per-link `try`/`except`: each
iteration turns its outcome (including a raised exception) into a log
entry; only an exception escaping an iteration would abort the remaining
links and the task. -/
def crawlLoop (env : CrawlEnv) (prematched : List LinkDesc) :
    List LinkDesc → Except String (List CrawlLog)
  | [] => Except.ok []
  | w :: rest =>
    let entry := linkLog w (processLink env prematched w)
    match crawlLoop env prematched rest with
    | Except.ok logs => Except.ok (entry :: logs)
    | Except.error e => Except.error e

/-- `crawl_related_resources_task(resource_pk)`: load the resource (log and
return when absent), then walk `related_resources + prematched_resources`. -/
def crawl_related_resources_task (env : CrawlEnv) (db : List ExternalResource)
    (resource_pk : Nat) : Except String (List CrawlLog) :=
  match db.find? (fun r => r.pk == resource_pk) with
  | none => Except.ok [CrawlLog.resourceMissing resource_pk]
  | some resource =>
    crawlLoop env resource.prematched_resources
      (resource.related_resources ++ resource.prematched_resources)

/-! ## Site registry URL resolution (`SiteManager.get_site_by_url`)

The registry is the insertion-ordered `SiteManager.registry.values()`; an
adapter class is represented by its two URL predicates.  A resolved
adapter instance is represented as the pair (class, url it was
constructed from). -/

structure SiteCls where
  validate_url : String → Bool
  validate_url_fallback : String → Bool

/-- The redirect cache key `"_redir_" + md5(url)`. -/
def redirectKey (md5hex : String → String) (url : String) : String :=
  "_redir_" ++ md5hex url

/-- `SiteManager.get_redirected_url(url, allow_head)`: a cached empty
string means "no redirect"; a cache miss with `allow_head` performs the
HEAD request (`head url = none` models a `RequestException`, degrading to
no redirect) and caches the outcome.  Returns the canonical url and the
redirect cache as mutated. -/
def get_redirected_url (md5hex : String → String) (rcache : List (String × String))
    (head : String → Option String) (url : String) (allow_head : Bool) :
    String × List (String × String) :=
  let k := redirectKey md5hex url
  match (rcache.find? (fun e => e.1 == k)).map (fun e => e.2) with
  | some u => if u == "" then (url, rcache) else (u, rcache)
  | none =>
    if !allow_head then (url, rcache)
    else
      let u := (head url).getD url
      (u, (k, if u == url then "" else u) :: rcache)

/-- `SiteManager.get_class_by_url`: first registered adapter whose
`validate_url` claims the url. -/
def get_class_by_url (registry : List SiteCls) (url : String) : Option SiteCls :=
  registry.find? (fun p => p.validate_url url)

/-- `SiteManager.get_fallback_class_by_url`. -/
def get_fallback_class_by_url (registry : List SiteCls) (url : String) : Option SiteCls :=
  registry.find? (fun p => p.validate_url_fallback url)

/-- `SiteManager.get_site_by_url(url, detect_redirection)`.  `url_validate`
stands for the `validators.url` predicate (with an empty string also
falsy); `md5hex`, `rcache` and `head` feed the redirect lookup. -/
def get_site_by_url (registry : List SiteCls) (md5hex : String → String)
    (rcache : List (String × String)) (head : String → Option String)
    (url_validate : String → Bool) (url : String) (detect_redirection : Bool) :
    Option (SiteCls × String) :=
  if url == "" || !url_validate url then none
  else
    let u := (get_redirected_url md5hex rcache head url detect_redirection).1
    let cls :=
      match get_class_by_url registry u with
      | some c => some c
      | none => get_fallback_class_by_url registry u
    match cls with
    | some c => some (c, u)
    | none =>
      if u == url then none
      else
        match get_class_by_url registry url with
        | some c => some (c, url)
        | none =>
          match get_fallback_class_by_url registry url with
          | some c => some (c, url)
          | none => none

/-! ## DoubanBook URL patterns (`catalog/sites/douban_book.py`)

The four `URL_PATTERNS` regexes use only these constructs: `\w+`, literal
characters, unescaped `.` (any character), the capture group `(\d+)`,
`/{0,1}`, and `\?`.  They are transcribed token-for-token; since in every
pattern `\w+` is followed by `:` and `(\d+)` by `/` or the pattern end,
the greedy, non-backtracking matcher below agrees with Python
`re.match` (which anchors at the start and allows trailing input) on
them.  `\w` is modelled as ASCII alphanumeric or underscore. -/

inductive RTok where
  | lit (c : Char)
  | anyChar
  | wordPlus
  | digitsGroup
  | optSlash
deriving DecidableEq

def isWordChar (c : Char) : Bool := c.isAlphanum || c == '_'

/-- Match a token sequence against input, anchored at the start, trailing
input allowed; `acc` carries the `(\d+)` capture.  `some cap` means the
pattern matched with capture `cap`; `none` means no match. -/
def matchToks : List RTok → List Char → Option (List Char) → Option (Option (List Char))
  | [], _, acc => some acc
  | RTok.lit c :: ts, cs, acc =>
    match cs with
    | [] => none
    | d :: cs' => if c = d then matchToks ts cs' acc else none
  | RTok.anyChar :: ts, cs, acc =>
    match cs with
    | [] => none
    | _ :: cs' => matchToks ts cs' acc
  | RTok.wordPlus :: ts, cs, acc =>
    if (cs.takeWhile isWordChar).isEmpty then none
    else matchToks ts (cs.dropWhile isWordChar) acc
  | RTok.digitsGroup :: ts, cs, _acc =>
    if (cs.takeWhile Char.isDigit).isEmpty then none
    else matchToks ts (cs.dropWhile Char.isDigit) (some (cs.takeWhile Char.isDigit))
  | RTok.optSlash :: ts, cs, acc =>
    match cs with
    | '/' :: cs' => matchToks ts cs' acc
    | _ => matchToks ts cs acc

def lits (s : String) : List RTok := s.toList.map RTok.lit

/-- `r"\w+://book\.douban\.com/subject/(\d+)/{0,1}"` -/
def doubanBookPattern1 : List RTok :=
  RTok.wordPlus :: (lits "://book.douban.com/subject/" ++ [RTok.digitsGroup, RTok.optSlash])

/-- `r"\w+://m.douban.com/book/subject/(\d+)/{0,1}"` (unescaped dots). -/
def doubanBookPattern2 : List RTok :=
  RTok.wordPlus :: (lits "://m" ++ RTok.anyChar :: lits "douban" ++
    RTok.anyChar :: lits "com/book/subject/" ++ [RTok.digitsGroup, RTok.optSlash])

/-- `r"\w+://www.douban.com/doubanapp/dispatch\?uri=/book/(\d+)/"` -/
def doubanBookPattern3 : List RTok :=
  RTok.wordPlus :: (lits "://www" ++ RTok.anyChar :: lits "douban" ++
    RTok.anyChar :: lits "com/doubanapp/dispatch" ++ RTok.lit '?' ::
    lits "uri=/book/" ++ [RTok.digitsGroup, RTok.lit '/'])

/-- `r"\w+://www.douban.com/doubanapp/dispatch/book/(\d+)"` -/
def doubanBookPattern4 : List RTok :=
  RTok.wordPlus :: (lits "://www" ++ RTok.anyChar :: lits "douban" ++
    RTok.anyChar :: lits "com/doubanapp/dispatch/book/" ++ [RTok.digitsGroup])

def doubanBookUrlPatterns : List (List RTok) :=
  [doubanBookPattern1, doubanBookPattern2, doubanBookPattern3, doubanBookPattern4]

/-- `next(iter([re.match(p, url) for p in cls.URL_PATTERNS if re.match(p, url)]), None)`:
the first pattern that matches wins. -/
def firstPatternMatch (pats : List (List RTok)) (url : String) :
    Option (Option (List Char)) :=
  match pats with
  | [] => none
  | p :: rest =>
    match matchToks p url.toList none with
    | some cap => some cap
    | none => firstPatternMatch rest url

/-- `DoubanBook.validate_url`. -/
def DoubanBook.validate_url (url : String) : Bool :=
  (firstPatternMatch doubanBookUrlPatterns url).isSome

/-- `AbstractSite.url_to_id` as inherited by `DoubanBook`: `u[1]` of the
first matching pattern. -/
def DoubanBook.url_to_id (url : String) : Option String :=
  match firstPatternMatch doubanBookUrlPatterns url with
  | some (some cap) => some (String.mk cap)
  | some none => none
  | none => none

/-- `DoubanBook.id_to_url`. -/
def DoubanBook.id_to_url (id_value : String) : String :=
  "https://book.douban.com/subject/" ++ id_value ++ "/"

/-! ## Concrete instances exercised by the witnesses -/

/-- A TV season (pk 1) whose parent show has pk 2. -/
def cexSeason : SearchItem := ⟨1, none, none, true, some 2, []⟩

/-- The parent show (pk 2) of `cexSeason`. -/
def cexShow : SearchItem := ⟨2, none, none, false, none, []⟩

/-- An edition resource already owning catalog item 10. -/
def c2ResourceB : ExternalResource :=
  ⟨2, some "https://example.org/edition/9", some "example_edition", some "9", some 10,
    [("title", "Edition Nine")], [], [], [], []⟩

def c2Item : CatalogItem := ⟨10, "Edition", some "isbn", some "9780000000000", none⟩

def c2OtherItem : CatalogItem := ⟨11, "Edition", some "isbn", some "9781111111111", none⟩

def c2Db : Database := ⟨[c2ResourceB], [c2Item, c2OtherItem]⟩

/-- A work resource with a curator-asserted prematched link to
`c2ResourceB`. -/
def c2ResourceA : ExternalResource :=
  ⟨1, some "https://example.org/work/1", some "example_work", some "1", none,
    [("title", "Work One")], [], [],
    [⟨some "https://example.org/edition/9", none, none⟩], []⟩

/-- An edition keyed by an ideal isbn but merged into item 2. -/
def c3Item1 : CatalogItem := ⟨1, "Edition", some "isbn", some "9790000000000", some 2⟩

/-- The merge target, keyed by a non-ideal site-local id. -/
def c3Item2 : CatalogItem := ⟨2, "Edition", some "doubanbook", some "222", none⟩

def c3Db : Database := ⟨[], [c3Item1, c3Item2]⟩

def c3Res : ExternalResource :=
  ⟨5, some "https://example.org/b/1", some "goodreads", some "zzz", none,
    [("title", "B")], [], [], [], []⟩

/-! ## Generic list lemmas -/

theorem mem_eraseP_of_not {α} (p : α → Bool) {l : List α} {x : α}
    (hx : x ∈ l) (hpx : p x = false) : x ∈ l.eraseP p := by
  induction l with
  | nil => cases hx
  | cons a l ih =>
    rw [List.eraseP_cons]
    by_cases hpa : p a = true
    · rcases List.mem_cons.mp hx with h | h
      · subst h; rw [hpa] at hpx; cases hpx
      · simpa [hpa] using h
    · rw [Bool.not_eq_true] at hpa
      rcases List.mem_cons.mp hx with h | h
      · simp [hpa, h]
      · simp [hpa, ih h]

theorem find?_first {α} (p : α → Bool) (l : List α) (i : Nat) (hi : i < l.length)
    (hp : p (l.get ⟨i, hi⟩) = true)
    (hj : ∀ j (hjl : j < l.length), j < i → p (l.get ⟨j, hjl⟩) = false) :
    l.find? p = some (l.get ⟨i, hi⟩) := by
  induction l generalizing i with
  | nil => cases hi
  | cons a l ih =>
    cases i with
    | zero => simp only [List.get] at hp; simp [List.find?, hp]
    | succ i =>
      have ha : p a = false := hj 0 (Nat.succ_pos _) (Nat.succ_pos _)
      simp only [List.get] at hp ⊢
      rw [List.find?, ha]
      exact ih i (Nat.lt_of_succ_lt_succ hi) hp
        (fun j hjl hji => hj (j + 1) (Nat.succ_lt_succ hjl) (Nat.succ_lt_succ hji))

/-! ## C5: `query_index` input validation -/

/-- C5: a call to `query_index` with `page < 1`, `page > 99`, a string
keyword shorter than 2, or any keyword longer than 100 returns the empty
result tuple without invoking the index's search operation. -/
theorem query_index_rejects_invalid (kw : Keywords) (page : Int)
    (parsed : Option String) (index : IndexResult)
    (h : page < 1 ∨ page > 99 ∨ (kw.isStr = true ∧ kw.size < 2) ∨ kw.size > 100) :
    query_index kw page parsed index = (emptyQueryOutput kw, false) := by
  unfold query_index
  rw [if_pos h]

/-- C5 witness: `search("q", page=100)` returns the empty result set and
does not contact the (non-empty) index. -/
theorem query_index_rejects_invalid_witness :
    query_index (Keywords.str "q") 100 (some "q") ⟨[cexShow], 3, 5, [("book", 5)]⟩ =
      (emptyQueryOutput (Keywords.str "q"), false) :=
  query_index_rejects_invalid _ _ _ _ (Or.inr (Or.inl (by norm_num)))

/-! ## C2: prematched short-circuit -/

/-- C2: when some descriptor in `prematched_resources` (walked in order,
by url when present, else by id pair) resolves to an `ExternalResource`
already owning an item, `match_existing_item_for_resource` returns exactly
that item with the store untouched — regardless of the item model and
lookup-id candidates — and `match_or_create_item_for_resource` returns it
without creating any item. -/
theorem prematched_short_circuit (db : Database) (ideal : List String)
    (res : ExternalResource) (model : Option String)
    (lookupIds : List (String × String)) (bestId : String × String) (i : Nat)
    (h : prematchedLookup db res.prematched_resources = some i) :
    match_existing_item_for_resource db ideal res model lookupIds = (some i, db) ∧
    (match_or_create_item_for_resource db ideal res model lookupIds bestId).result
      = some i ∧
    (match_or_create_item_for_resource db ideal res model lookupIds bestId).db.items
      = db.items := by
  have hme : match_existing_item_for_resource db ideal res model lookupIds
      = (some i, db) := by
    unfold match_existing_item_for_resource
    rw [h]
  refine ⟨hme, ?_, ?_⟩ <;>
  · simp only [match_or_create_item_for_resource, hme, finishMatchOrCreate]
    split <;> rfl

/-- C2 witness: resource A's prematched link to resource B (which owns
item 10) wins, even though A's lookup-id candidate would match item 11,
and no item is created. -/
theorem prematched_short_circuit_witness :
    match_existing_item_for_resource c2Db ["isbn"] c2ResourceA (some "Edition")
        [("isbn", "9781111111111")] = (some 10, c2Db) ∧
    (match_or_create_item_for_resource c2Db ["isbn"] c2ResourceA (some "Edition")
        [("isbn", "9781111111111")] ("isbn", "9780000000000")).result = some 10 ∧
    (match_or_create_item_for_resource c2Db ["isbn"] c2ResourceA (some "Edition")
        [("isbn", "9781111111111")] ("isbn", "9780000000000")).db.items = c2Db.items :=
  prematched_short_circuit c2Db ["isbn"] c2ResourceA (some "Edition")
    [("isbn", "9781111111111")] ("isbn", "9780000000000") 10 (by rfl)

/-! ## C3: ideal-id promotion -/

theorem matchLoop_skip (db : Database) (ideal : List String) (md : String)
    (res : ExternalResource) (pre rest : List (String × String))
    (hpre : ∀ p ∈ pre, lookupCandidate db md res p.1 p.2 = none) :
    matchLoop db ideal md res (pre ++ rest) = matchLoop db ideal md res rest := by
  induction pre with
  | nil => rfl
  | cons c pre ih =>
    obtain ⟨t, v⟩ := c
    have hc := hpre (t, v) (List.mem_cons_self _ _)
    simp only [List.cons_append]
    have hstep : matchLoop db ideal md res ((t, v) :: (pre ++ rest))
        = matchLoop db ideal md res (pre ++ rest) := by
      conv_lhs => rw [matchLoop]
      rw [hc]
    rw [hstep]
    exact ih (fun p hp => hpre p (List.mem_cons_of_mem _ hp))

theorem lookupCandidate_mem {db : Database} {md : String} {res : ExternalResource}
    {t v : String} {m₀ : CatalogItem}
    (h : lookupCandidate db md res t v = some m₀) : m₀ ∈ db.items := by
  unfold lookupCandidate at h
  cases hf : firstItemByPrimary db md (some t) (some v) with
  | some x =>
    rw [hf] at h
    cases h
    unfold firstItemByPrimary at hf
    exact List.mem_of_find?_eq_some hf
  | none =>
    rw [hf] at h
    unfold firstItemByPrimary at h
    exact List.mem_of_find?_eq_some h

theorem derefMerged_mem {db : Database} {m₀ : CatalogItem} (h : m₀ ∈ db.items) :
    derefMerged db m₀ ∈ db.items := by
  unfold derefMerged
  cases hm : m₀.merged_to_item with
  | none => exact h
  | some j =>
    show (findItemByPk db j).getD m₀ ∈ db.items
    cases hf : findItemByPk db j with
    | none => exact h
    | some x =>
      unfold findItemByPk at hf
      exact List.mem_of_find?_eq_some hf

theorem find?_pk_map_replace (l : List CatalogItem) (m' : CatalogItem)
    (hmem : ∃ x ∈ l, x.pk = m'.pk) :
    (l.map (fun x => if x.pk = m'.pk then m' else x)).find? (fun x => x.pk == m'.pk)
      = some m' := by
  induction l with
  | nil => simp at hmem
  | cons a l ih =>
    by_cases ha : a.pk = m'.pk
    · rw [List.map_cons, if_pos ha, List.find?_cons_of_pos _ (by simp)]
    · have hrec : ∃ x ∈ l, x.pk = m'.pk := by
        obtain ⟨x, hx, hpk⟩ := hmem
        rcases List.mem_cons.mp hx with h | h
        · subst h; exact absurd hpk ha
        · exact ⟨x, h, hpk⟩
      rw [List.map_cons, if_neg ha, List.find?_cons_of_neg _ (by simp [ha])]
      exact ih hrec

/-- C3: when the first lookup-id candidate `(t, v)` that produces a match
has an ideal type `t` while the matched item's current primary id type is
not ideal, the loop returns that item promoted in place to `(t, v)` and
saved; the candidate is matched through `derefMerged`, so when the raw
match carries a `merged_to_item` pointer the promotion applies to the
merge target. -/
theorem ideal_id_promotion (db : Database) (ideal : List String) (md : String)
    (res : ExternalResource) (pre rest : List (String × String)) (t v : String)
    (m₀ m : CatalogItem)
    (hpre : ∀ p ∈ pre, lookupCandidate db md res p.1 p.2 = none)
    (hfound : lookupCandidate db md res t v = some m₀)
    (hderef : derefMerged db m₀ = m)
    (hnotideal : optMem m.primary_lookup_id_type ideal = false)
    (hideal : ideal.contains t = true) :
    matchLoop db ideal md res (pre ++ (t, v) :: rest)
      = (some m.pk, saveItem db (promote t v m)) ∧
    findItemByPk (saveItem db (promote t v m)) m.pk = some (promote t v m) := by
  constructor
  · rw [matchLoop_skip db ideal md res pre _ hpre]
    unfold matchLoop
    rw [hfound]
    simp only [hderef, hnotideal, hideal]
    rfl
  · have hmem : m ∈ db.items := hderef ▸ derefMerged_mem (lookupCandidate_mem hfound)
    unfold findItemByPk saveItem
    simpa using find?_pk_map_replace db.items (promote t v m) ⟨m, hmem, rfl⟩

/-- C3 witness: candidate `("isbn", ...)` matches item 1 by primary id,
dereferences to merge target item 2 (whose primary type `doubanbook` is
not ideal), and item 2 is promoted to the isbn and saved. -/
theorem ideal_id_promotion_witness :
    matchLoop c3Db ["isbn"] "Edition" c3Res
        ([("cubn", "c1")] ++ ("isbn", "9790000000000") :: [])
      = (some 2, saveItem c3Db (promote "isbn" "9790000000000" c3Item2)) ∧
    findItemByPk (saveItem c3Db (promote "isbn" "9790000000000" c3Item2)) 2
      = some (promote "isbn" "9790000000000" c3Item2) :=
  ideal_id_promotion c3Db ["isbn"] "Edition" c3Res [("cubn", "c1")] []
    "isbn" "9790000000000" c3Item1 c3Item2 (by decide) (by rfl) (by rfl)
    (by rfl) (by rfl)

/-! ## C1: the season/show pass of the search deduplicator -/

theorem eraseP_pk_clear {l : List SearchItem} {sh : Nat}
    (hnd : l.Pairwise (fun x y => x.pk ≠ y.pk)) :
    ∀ j ∈ l.eraseP (fun j => j.pk == sh), j.pk ≠ sh := by
  induction l with
  | nil => intro j hj; cases hj
  | cons a l ih =>
    intro j hj
    rw [List.eraseP_cons] at hj
    rcases List.pairwise_cons.mp hnd with ⟨ha, hl⟩
    by_cases hpa : a.pk = sh
    · simp only [hpa, beq_self_eq_true, cond_true] at hj
      intro hjs
      exact (ha j hj) (by rw [hpa, hjs])
    · have : (a.pk == sh) = false := by simpa using hpa
      simp only [this, cond_false] at hj
      rcases List.mem_cons.mp hj with h | h
      · subst h; exact hpa
      · exact ih hl j h

theorem seasonStep_items_sublist (st : DedupState) (s : SearchItem) :
    (seasonStep st s).items.Sublist st.items := by
  cases hsh : s.showId with
  | none => simp only [seasonStep, hsh]; exact List.Sublist.refl _
  | some sh =>
    simp only [seasonStep, hsh]
    by_cases h : st.items.any (fun j => j.pk == sh) = true
    · rw [if_pos h]
      exact List.eraseP_sublist _
    · rw [if_neg h]

theorem seasonFold_items_sublist (ss : List SearchItem) (st : DedupState) :
    (ss.foldl seasonStep st).items.Sublist st.items := by
  induction ss generalizing st with
  | nil => exact List.Sublist.refl _
  | cons a ss ih => exact (ih (seasonStep st a)).trans (seasonStep_items_sublist st a)

theorem seasonStep_clears_show (st : DedupState) (a : SearchItem) (sh : Nat)
    (hnd : st.items.Pairwise (fun x y => x.pk ≠ y.pk)) (ha : a.showId = some sh) :
    ∀ j ∈ (seasonStep st a).items, j.pk ≠ sh := by
  simp only [seasonStep, ha]
  by_cases h : st.items.any (fun j => j.pk == sh) = true
  · rw [if_pos h]
    exact eraseP_pk_clear hnd
  · rw [if_neg h]
    intro j hj hjs
    exact h (List.any_eq_true.mpr ⟨j, hj, by simpa using hjs⟩)

theorem seasonFold_keeps_clear (ss : List SearchItem) (st : DedupState) (sh : Nat)
    (h : ∀ j ∈ st.items, j.pk ≠ sh) :
    ∀ j ∈ (ss.foldl seasonStep st).items, j.pk ≠ sh :=
  fun j hj => h j ((seasonFold_items_sublist ss st).subset hj)

theorem seasonFold_removes_show (ss : List SearchItem) (st : DedupState)
    (s : SearchItem) (sh : Nat)
    (hnd : st.items.Pairwise (fun x y => x.pk ≠ y.pk))
    (hs : s ∈ ss) (hsh : s.showId = some sh) :
    ∀ j ∈ (ss.foldl seasonStep st).items, j.pk ≠ sh := by
  induction ss generalizing st with
  | nil => cases hs
  | cons a ss ih =>
    rcases List.mem_cons.mp hs with h | h
    · subst h
      exact seasonFold_keeps_clear ss _ sh (seasonStep_clears_show st s sh hnd hsh)
    · exact ih (seasonStep st a) (hnd.sublist (seasonStep_items_sublist st a)) h

theorem seasonFold_keeps_item (ss : List SearchItem) (st : DedupState) (x : SearchItem)
    (hx : x ∈ st.items) (hss : ∀ s ∈ ss, s.showId ≠ some x.pk) :
    x ∈ (ss.foldl seasonStep st).items := by
  induction ss generalizing st with
  | nil => exact hx
  | cons a ss ih =>
    refine ih (seasonStep st a) ?_ (fun s hs => hss s (List.mem_cons_of_mem a hs))
    cases hsh : a.showId with
    | none => simp only [seasonStep, hsh]; exact hx
    | some sh =>
      simp only [seasonStep, hsh]
      by_cases h : st.items.any (fun j => j.pk == sh) = true
      · rw [if_pos h]
        have hne : sh ≠ x.pk :=
          fun he => (hss a (List.mem_cons_self a ss)) (by rw [hsh, he])
        exact mem_eraseP_of_not _ hx (by simpa using (Ne.symm hne))
      · rw [if_neg h]
        exact hx

theorem seasonStep_dupeTo_mono (st : DedupState) (a : SearchItem) (p : Nat × Nat)
    (hp : p ∈ st.dupeTo) : p ∈ (seasonStep st a).dupeTo := by
  cases hsh : a.showId with
  | none => simp only [seasonStep, hsh]; exact hp
  | some sh =>
    simp only [seasonStep, hsh]
    by_cases h : st.items.any (fun j => j.pk == sh) = true
    · rw [if_pos h]
      exact List.mem_append_left _ hp
    · rw [if_neg h]
      exact hp

theorem seasonFold_dupeTo_mono (ss : List SearchItem) (st : DedupState) (p : Nat × Nat)
    (hp : p ∈ st.dupeTo) : p ∈ (ss.foldl seasonStep st).dupeTo := by
  induction ss generalizing st with
  | nil => exact hp
  | cons a ss ih => exact ih _ (seasonStep_dupeTo_mono st a p hp)

theorem seasonFold_removed_recorded (ss : List SearchItem) (st : DedupState)
    (x : SearchItem) (hx : x ∈ st.items)
    (hout : x ∉ (ss.foldl seasonStep st).items) :
    ∃ d, (d, x.pk) ∈ (ss.foldl seasonStep st).dupeTo := by
  induction ss generalizing st with
  | nil => exact absurd hx hout
  | cons a ss ih =>
    by_cases hx' : x ∈ (seasonStep st a).items
    · exact ih (seasonStep st a) hx' hout
    · refine ⟨a.pk, seasonFold_dupeTo_mono ss (seasonStep st a) _ ?_⟩
      cases hsh : a.showId with
      | none => simp only [seasonStep, hsh] at hx'; exact absurd hx hx'
      | some sh =>
        simp only [seasonStep, hsh] at hx' ⊢
        by_cases h : st.items.any (fun j => j.pk == sh) = true
        · rw [if_pos h] at hx' ⊢
          have hxs : x.pk = sh := by
            by_contra hne
            exact hx' (mem_eraseP_of_not _ hx (by simpa using hne))
          rw [hxs]
          exact List.mem_append_right _ (by simp)
        · rw [if_neg h] at hx'
          exact absurd hx hx'

/-- C1 (amended): in `query_index`, when both a TV-season item and its
parent show survive the key-dedup pass, the *show* is attached as a
duplicate (of a season that points at it) and removed from the emitted
items; the *season* remains an independent result.  `hnd` holds of actual
index results since item pks are unique; `hnoseason` states that nothing
claims `s` itself as its show (a season is never another season's show). -/
theorem season_show_folding (rs : List SearchItem) (s w : SearchItem)
    (hnd : (dedupPass1 rs).items.Pairwise (fun x y => x.pk ≠ y.pk))
    (hs : s ∈ (dedupPass1 rs).items) (hw : w ∈ (dedupPass1 rs).items)
    (hseason : s.isTVSeason = true) (hshow : s.showId = some w.pk)
    (hnoseason : ∀ x ∈ (dedupPass1 rs).items, x.showId ≠ some s.pk) :
    w ∉ (queryDedup rs).items ∧ s ∈ (queryDedup rs).items ∧
    ∃ d, (d, w.pk) ∈ (queryDedup rs).dupeTo := by
  have hfold : queryDedup rs
      = ((dedupPass1 rs).items.filter (fun i => i.isTVSeason)).foldl seasonStep
          (dedupPass1 rs) := rfl
  have hsseasons : s ∈ (dedupPass1 rs).items.filter (fun i => i.isTVSeason) :=
    List.mem_filter.mpr ⟨hs, hseason⟩
  have hremoved : ∀ j ∈ (queryDedup rs).items, j.pk ≠ w.pk := by
    rw [hfold]
    exact seasonFold_removes_show _ _ s w.pk hnd hsseasons hshow
  refine ⟨fun hmem => hremoved w hmem rfl, ?_, ?_⟩
  · rw [hfold]
    exact seasonFold_keeps_item _ _ s hs
      (fun s' hs' => hnoseason s' (List.mem_filter.mp hs').1)
  · rw [hfold]
    refine seasonFold_removed_recorded _ _ w hw (fun hmem => ?_)
    rw [← hfold] at hmem
    exact hremoved w hmem rfl

/-- C1 counterexample: with a season (pk 1, show pk 2) and its show (pk 2)
both in one result set, the emitted items are `[season]` — the show does
not remain — and the only duplicate attachment hangs the show off the
season, not the season off the show. -/
theorem season_suppression_cex :
    cexShow ∉ (queryDedup [cexSeason, cexShow]).items ∧
    (queryDedup [cexSeason, cexShow]).items = [cexSeason] ∧
    (queryDedup [cexSeason, cexShow]).dupeTo = [(1, 2)] := by decide

/-- C1 witness for the amended statement, at the same concrete result
set. -/
theorem season_show_folding_witness :
    cexShow ∉ (queryDedup [cexSeason, cexShow]).items ∧
    cexSeason ∈ (queryDedup [cexSeason, cexShow]).items := by
  have h := season_show_folding [cexSeason, cexShow] cexSeason cexShow (by decide)
    (by decide) (by decide) (by decide) (by decide) (by decide)
  exact ⟨h.1, h.2.1⟩

/-! ## C4 and C10: fetch admission -/

theorem cacheGet_set_ne (c : Cache) (k k' : String) (ttl t t' : Nat) (hne : k ≠ k') :
    cacheGet (cacheSet c k ttl t) k' t' = cacheGet c k' t' := by
  unfold cacheGet cacheSet
  rw [List.find?_cons_of_neg _ (by simpa using hne)]

theorem cacheGet_set_self (c : Cache) (k : String) (ttl t t' : Nat) (h : t' < t + ttl) :
    cacheGet (cacheSet c k ttl t) k t' = some 1 := by
  unfold cacheGet cacheSet
  rw [List.find?_cons_of_pos _ (by simp)]
  simp [h]

theorem get_fetch_lock_admitted_eq (debug : Bool) (user : Option FLUser) (url : String)
    (c : Cache) (t : Nat) (hadm : (get_fetch_lock debug user url c t).1 = true) :
    get_fetch_lock debug user url c t
      = (true, cacheSet (cacheSet c (actorKey user) (actorTTL debug user) t)
          (urlLockKey url) (urlTTL debug) t) := by
  simp only [get_fetch_lock] at hadm ⊢
  by_cases hA : (cacheGet c (actorKey user) t).isSome = true
  · rw [if_pos hA] at hadm
    simp at hadm
  · rw [if_neg hA] at hadm ⊢
    by_cases hB : (cacheGet (cacheSet c (actorKey user) (actorTTL debug user) t)
        (urlLockKey url) t).isSome = true
    · rw [if_pos hB] at hadm
      simp at hadm
    · rw [if_neg hB]

theorem get_fetch_lock_denied_on_url (debug : Bool) (user : Option FLUser) (url : String)
    (c : Cache) (t : Nat) (hurl : (cacheGet c (urlLockKey url) t).isSome = true) :
    (get_fetch_lock debug user url c t).1 = false := by
  simp only [get_fetch_lock]
  by_cases hA : (cacheGet c (actorKey user) t).isSome = true
  · rw [if_pos hA]
  · have hne : actorKey user ≠ urlLockKey url := by
      intro he
      rw [he] at hA
      exact hA hurl
    have hstill : (cacheGet (cacheSet c (actorKey user) (actorTTL debug user) t)
        (urlLockKey url) t).isSome = true := by
      rw [cacheGet_set_ne c _ _ _ t t hne]
      exact hurl
    rw [if_neg hA, if_pos hstill]

theorem fetchRequest_denied_shape (md5hex : String → String) (debug : Bool)
    (user : Option FLUser) (url : String) (c : Cache) (q : List RqJob) (t : Nat)
    (hf : (get_fetch_lock debug user url c t).1 = false) :
    fetchRequest md5hex debug user url false c q t
      = ⟨none, (get_fetch_lock debug user url c t).2, q⟩ := by
  simp only [fetchRequest]
  rcases hgl : get_fetch_lock debug user url c t with ⟨b, c'⟩
  rw [hgl] at hf
  simp only at hf
  subst hf
  simp

/-- C4: once a non-refetch fetch for `url` is admitted (which sets both
lock keys), a second lock-gated fetch request for the same `url` by any
actor, arriving while the per-URL lock entry is still cached, is denied
and enqueues nothing: the two requests together enqueue exactly one job. -/
theorem fetch_single_flight (md5hex : String → String) (debug : Bool)
    (u₁ u₂ : Option FLUser) (url : String) (c : Cache) (q : List RqJob) (t t' : Nat)
    (hadm : (get_fetch_lock debug u₁ url c t).1 = true)
    (hle : t ≤ t') (hlt : t' < t + urlTTL debug)
    (hq : ∀ j ∈ q, j.id ≠ "fetch_" ++ md5hex url) :
    (fetchRequest md5hex debug u₂ url false
        (fetchRequest md5hex debug u₁ url false c q t).cache
        (fetchRequest md5hex debug u₁ url false c q t).queue t').job = none ∧
    (fetchRequest md5hex debug u₂ url false
        (fetchRequest md5hex debug u₁ url false c q t).cache
        (fetchRequest md5hex debug u₁ url false c q t).queue t').queue
      = (fetchRequest md5hex debug u₁ url false c q t).queue ∧
    ((fetchRequest md5hex debug u₁ url false c q t).queue.filter
        (fun j => j.id == "fetch_" ++ md5hex url)).length
      = (q.filter (fun j => j.id == "fetch_" ++ md5hex url)).length + 1 := by
  have hlock1 := get_fetch_lock_admitted_eq debug u₁ url c t hadm
  have hfind : q.find? (fun j => j.id == "fetch_" ++ md5hex url) = none :=
    List.find?_eq_none.mpr (fun j hj => by simpa using hq j hj)
  have henq : enqueue_fetch md5hex q url
      = ("fetch_" ++ md5hex url, q ++ [⟨"fetch_" ++ md5hex url, JobStatus.queued⟩]) := by
    simp only [enqueue_fetch, jobInProgress, hfind]
    simp
  have hr₁ : fetchRequest md5hex debug u₁ url false c q t
      = ⟨some ("fetch_" ++ md5hex url),
          cacheSet (cacheSet c (actorKey u₁) (actorTTL debug u₁) t) (urlLockKey url)
            (urlTTL debug) t,
          q ++ [⟨"fetch_" ++ md5hex url, JobStatus.queued⟩]⟩ := by
    simp only [fetchRequest, hlock1, henq]
    simp
  have hurl2 : (cacheGet (cacheSet (cacheSet c (actorKey u₁) (actorTTL debug u₁) t)
      (urlLockKey url) (urlTTL debug) t) (urlLockKey url) t').isSome = true := by
    rw [cacheGet_set_self _ _ _ _ _ hlt]
    rfl
  have hdenied := get_fetch_lock_denied_on_url debug u₂ url _ t' hurl2
  have hr₂ := fetchRequest_denied_shape md5hex debug u₂ url
    (cacheSet (cacheSet c (actorKey u₁) (actorTTL debug u₁) t) (urlLockKey url)
      (urlTTL debug) t)
    (q ++ [⟨"fetch_" ++ md5hex url, JobStatus.queued⟩]) t' hdenied
  rw [hr₁]
  refine ⟨?_, ?_, ?_⟩
  · rw [hr₂]
  · rw [hr₂]
  · rw [List.filter_append]
    simp

/-- C4 witness: two concrete lock-gated requests for one URL from an empty
cache and queue: the second is denied, the queue is left as the first
request made it, and exactly one job was enqueued. -/
theorem fetch_single_flight_witness :
    (fetchRequest (fun s => s) false (some ⟨7, true⟩) "https://example.org/x" false
        (fetchRequest (fun s => s) false (some ⟨1, true⟩) "https://example.org/x"
          false [] [] 0).cache
        (fetchRequest (fun s => s) false (some ⟨1, true⟩) "https://example.org/x"
          false [] [] 0).queue 3600).job = none ∧
    (fetchRequest (fun s => s) false (some ⟨7, true⟩) "https://example.org/x" false
        (fetchRequest (fun s => s) false (some ⟨1, true⟩) "https://example.org/x"
          false [] [] 0).cache
        (fetchRequest (fun s => s) false (some ⟨1, true⟩) "https://example.org/x"
          false [] [] 0).queue 3600).queue
      = (fetchRequest (fun s => s) false (some ⟨1, true⟩) "https://example.org/x"
          false [] [] 0).queue ∧
    ((fetchRequest (fun s => s) false (some ⟨1, true⟩) "https://example.org/x"
        false [] [] 0).queue.filter
          (fun j => j.id == "fetch_" ++ (fun s : String => s) "https://example.org/x")).length
      = (([] : List RqJob).filter
          (fun j => j.id == "fetch_" ++ (fun s : String => s) "https://example.org/x")).length
        + 1 :=
  fetch_single_flight (fun s => s) false (some ⟨1, true⟩) (some ⟨7, true⟩)
    "https://example.org/x" [] [] 0 3600 (by rfl) (by norm_num) (by decide)
    (by simp)

/-- C10: a `get_fetch_lock` call finding the per-actor key absent but the
per-URL key present returns `false`, yet has set the per-actor lock with
its full TTL, so the same actor's next attempt for any URL within that TTL
is denied at the per-actor gate. -/
theorem denied_url_lock_consumes_actor (debug : Bool) (user : Option FLUser)
    (url : String) (c : Cache) (t : Nat)
    (hactor : cacheGet c (actorKey user) t = none)
    (hurl : (cacheGet c (urlLockKey url) t).isSome = true) :
    (get_fetch_lock debug user url c t).1 = false ∧
    (∀ t', t' < t + actorTTL debug user →
      cacheGet (get_fetch_lock debug user url c t).2 (actorKey user) t' = some 1) ∧
    (∀ url₂ t', t' < t + actorTTL debug user →
      (get_fetch_lock debug user url₂ (get_fetch_lock debug user url c t).2 t').1
        = false) := by
  have hA : ¬((cacheGet c (actorKey user) t).isSome = true) := by
    rw [hactor]
    simp
  have hne : actorKey user ≠ urlLockKey url := by
    intro he
    rw [he] at hA
    exact hA hurl
  have hstill : (cacheGet (cacheSet c (actorKey user) (actorTTL debug user) t)
      (urlLockKey url) t).isSome = true := by
    rw [cacheGet_set_ne c _ _ _ t t hne]
    exact hurl
  have hlock : get_fetch_lock debug user url c t
      = (false, cacheSet c (actorKey user) (actorTTL debug user) t) := by
    simp only [get_fetch_lock]
    rw [if_neg hA, if_pos hstill]
  refine ⟨by rw [hlock], ?_, ?_⟩
  · intro t' ht'
    rw [hlock]
    exact cacheGet_set_self c _ _ t t' ht'
  · intro url₂ t' ht'
    rw [hlock]
    simp only [get_fetch_lock]
    rw [if_pos (by rw [cacheGet_set_self c _ _ t t' ht']; rfl)]

/-- C10 witness: with the per-URL key for `"u"` live and the shared
anonymous actor key absent, the call is denied, the actor key is live 10s
later, and a fetch of a different URL `"w"` at that moment is denied. -/
theorem denied_url_lock_consumes_actor_witness :
    (get_fetch_lock false none "u" [("_fetch_lock:u", 50)] 0).1 = false ∧
    cacheGet (get_fetch_lock false none "u" [("_fetch_lock:u", 50)] 0).2
      (actorKey none) 10 = some 1 ∧
    (get_fetch_lock false none "w"
      (get_fetch_lock false none "u" [("_fetch_lock:u", 50)] 0).2 10).1 = false := by
  have h := denied_url_lock_consumes_actor false none "u" [("_fetch_lock:u", 50)] 0
    (by rfl) (by rfl)
  exact ⟨h.1, h.2.1 10 (by decide), h.2.2 "w" 10 (by decide)⟩

/-! ## C6: terminal failure of `get_resource_ready` -/

theorem grrUpdatedResource_events (site : Site) (preloaded : Option ResourceContent)
    (ignore_existing : Bool) (p : ExternalResource) :
    (grrUpdatedResource site preloaded ignore_existing p).2 = []
      ∨ (grrUpdatedResource site preloaded ignore_existing p).2 = [GrrEvent.scrapeCall] := by
  unfold grrUpdatedResource
  by_cases h : (!p.ready || ignore_existing) = true
  · rw [if_pos h]
    cases preloaded with
    | none => right; rfl
    | some rc => left; rfl
  · rw [if_neg h]
    left
    rfl

/-- C6: when the resource is still not ready after the
scrape/preloaded-content update step, `get_resource_ready` returns `none`
and its trace carries at most the scrape call — no item matching or
creation, no resource save and no item save happen in that call. -/
theorem scrape_incomplete_terminal (site : Site) (auto_save auto_create auto_link : Bool)
    (preloaded : Option ResourceContent) (ignore_existing : Bool) (p₀ : ExternalResource)
    (hres : site.resource = some p₀)
    (hnotready : (grrUpdatedResource site preloaded ignore_existing p₀).1.ready = false) :
    (get_resource_ready site auto_save auto_create auto_link preloaded ignore_existing).1
      = none ∧
    GrrEvent.matchOrCreate
      ∉ (get_resource_ready site auto_save auto_create auto_link preloaded
          ignore_existing).2 ∧
    GrrEvent.saveResource
      ∉ (get_resource_ready site auto_save auto_create auto_link preloaded
          ignore_existing).2 ∧
    GrrEvent.saveItem
      ∉ (get_resource_ready site auto_save auto_create auto_link preloaded
          ignore_existing).2 := by
  have hgrr : get_resource_ready site auto_save auto_create auto_link preloaded
      ignore_existing
      = (none, (grrUpdatedResource site preloaded ignore_existing p₀).2) := by
    simp only [get_resource_ready, hres]
    rw [if_pos (by rw [hnotready]; rfl)]
  rw [hgrr]
  rcases grrUpdatedResource_events site preloaded ignore_existing p₀ with h | h <;>
    rw [h] <;> exact ⟨rfl, by simp, by simp, by simp⟩

/-- C6 witness: a resource with no metadata whose scrape also produces no
metadata stays not ready; the call fails with `none` and an empty trace
except for the scrape call. -/
theorem scrape_incomplete_terminal_witness :
    (get_resource_ready ⟨some ⟨1, some "https://example.org/p", none, none, none,
        [], [], [], [], []⟩, ⟨[], [], none⟩⟩ true true true none false).1 = none ∧
    GrrEvent.matchOrCreate
      ∉ (get_resource_ready ⟨some ⟨1, some "https://example.org/p", none, none, none,
          [], [], [], [], []⟩, ⟨[], [], none⟩⟩ true true true none false).2 ∧
    GrrEvent.saveResource
      ∉ (get_resource_ready ⟨some ⟨1, some "https://example.org/p", none, none, none,
          [], [], [], [], []⟩, ⟨[], [], none⟩⟩ true true true none false).2 ∧
    GrrEvent.saveItem
      ∉ (get_resource_ready ⟨some ⟨1, some "https://example.org/p", none, none, none,
          [], [], [], [], []⟩, ⟨[], [], none⟩⟩ true true true none false).2 :=
  scrape_incomplete_terminal ⟨some ⟨1, some "https://example.org/p", none, none, none,
      [], [], [], [], []⟩, ⟨[], [], none⟩⟩ true true true none false
    ⟨1, some "https://example.org/p", none, none, none, [], [], [], [], []⟩
    (by rfl) (by rfl)

/-! ## C7: crawl orchestrator partial-failure isolation -/

theorem crawlLoop_ok (env : CrawlEnv) (prematched : List LinkDesc)
    (links : List LinkDesc) :
    crawlLoop env prematched links
      = Except.ok (links.map (fun w => linkLog w (processLink env prematched w))) := by
  induction links with
  | nil => rfl
  | cons w rest ih =>
    unfold crawlLoop
    rw [ih]
    rfl

/-- C7: the crawl task never propagates an exception: with the resource
absent it logs and returns, and with the resource found it processes every
link of `related_resources ++ prematched_resources` independently, each
per-link failure caught and turned into a log entry depending only on that
link's own outcome. -/
theorem crawl_partial_failure_isolation (env : CrawlEnv) (db : List ExternalResource)
    (pk : Nat) :
    (db.find? (fun x => x.pk == pk) = none →
      crawl_related_resources_task env db pk
        = Except.ok [CrawlLog.resourceMissing pk]) ∧
    (∀ r, db.find? (fun x => x.pk == pk) = some r →
      crawl_related_resources_task env db pk
        = Except.ok ((r.related_resources ++ r.prematched_resources).map
            (fun w => linkLog w (processLink env r.prematched_resources w)))) := by
  constructor
  · intro hnone
    unfold crawl_related_resources_task
    rw [hnone]
  · intro r hr
    unfold crawl_related_resources_task
    rw [hr]
    exact crawlLoop_ok env r.prematched_resources _

/-- C7 witness: a resource with one related and one prematched link, in an
environment whose resolution raises on every site: both exceptions are
caught, both links produce a log entry, and the task returns normally. -/
theorem crawl_partial_failure_isolation_witness :
    crawl_related_resources_task
        ⟨fun _ _ => some 1, fun _ => some 1, fun _ => Except.error "boom",
          fun _ _ => Except.ok ()⟩
        [⟨7, some "https://example.org/a", none, none, none, [("title", "A")], [],
          [⟨some "https://example.org/b", none, none⟩],
          [⟨none, some "site", some "9"⟩], []⟩] 7
      = Except.ok [CrawlLog.crawlError ⟨some "https://example.org/b", none, none⟩,
          CrawlLog.crawlError ⟨none, some "site", some "9"⟩] := by
  rw [(crawl_partial_failure_isolation
    ⟨fun _ _ => some 1, fun _ => some 1, fun _ => Except.error "boom",
      fun _ _ => Except.ok ()⟩
    [⟨7, some "https://example.org/a", none, none, none, [("title", "A")], [],
      [⟨some "https://example.org/b", none, none⟩],
      [⟨none, some "site", some "9"⟩], []⟩] 7).2
    ⟨7, some "https://example.org/a", none, none, none, [("title", "A")], [],
      [⟨some "https://example.org/b", none, none⟩],
      [⟨none, some "site", some "9"⟩], []⟩ (by rfl)]
  rfl

/-! ## C8: URL-to-adapter resolution order -/

/-- C8: `get_site_by_url` rejects invalid input; otherwise it tries each
registered adapter's `validate_url` in registration order against the
canonical (redirect-resolved) URL, then each `validate_url_fallback`;
when the canonical URL differs from the original and matched nothing, it
retries `validate_url` then `validate_url_fallback` against the original
URL and constructs the adapter from the original URL; it returns `none`
when no predicate matches. -/
theorem get_site_by_url_resolution_order (registry : List SiteCls)
    (md5hex : String → String) (rcache : List (String × String))
    (head : String → Option String) (url_validate : String → Bool) (url : String)
    (detect : Bool) :
    ((url == "" || !url_validate url) = true →
      get_site_by_url registry md5hex rcache head url_validate url detect = none) ∧
    ((url == "" || !url_validate url) = false →
      ∀ i (hi : i < registry.length),
        (registry.get ⟨i, hi⟩).validate_url
            ((get_redirected_url md5hex rcache head url detect).1) = true →
        (∀ j (hj : j < registry.length), j < i →
          (registry.get ⟨j, hj⟩).validate_url
              ((get_redirected_url md5hex rcache head url detect).1) = false) →
        get_site_by_url registry md5hex rcache head url_validate url detect
          = some (registry.get ⟨i, hi⟩,
              (get_redirected_url md5hex rcache head url detect).1)) ∧
    ((url == "" || !url_validate url) = false →
      (∀ c ∈ registry,
        c.validate_url ((get_redirected_url md5hex rcache head url detect).1) = false) →
      ∀ i (hi : i < registry.length),
        (registry.get ⟨i, hi⟩).validate_url_fallback
            ((get_redirected_url md5hex rcache head url detect).1) = true →
        (∀ j (hj : j < registry.length), j < i →
          (registry.get ⟨j, hj⟩).validate_url_fallback
              ((get_redirected_url md5hex rcache head url detect).1) = false) →
        get_site_by_url registry md5hex rcache head url_validate url detect
          = some (registry.get ⟨i, hi⟩,
              (get_redirected_url md5hex rcache head url detect).1)) ∧
    ((url == "" || !url_validate url) = false →
      (∀ c ∈ registry,
        c.validate_url ((get_redirected_url md5hex rcache head url detect).1) = false ∧
        c.validate_url_fallback
            ((get_redirected_url md5hex rcache head url detect).1) = false) →
      (get_redirected_url md5hex rcache head url detect).1 ≠ url →
      ∀ i (hi : i < registry.length),
        (registry.get ⟨i, hi⟩).validate_url url = true →
        (∀ j (hj : j < registry.length), j < i →
          (registry.get ⟨j, hj⟩).validate_url url = false) →
        get_site_by_url registry md5hex rcache head url_validate url detect
          = some (registry.get ⟨i, hi⟩, url)) ∧
    ((url == "" || !url_validate url) = false →
      (∀ c ∈ registry,
        c.validate_url ((get_redirected_url md5hex rcache head url detect).1) = false ∧
        c.validate_url_fallback
            ((get_redirected_url md5hex rcache head url detect).1) = false) →
      (get_redirected_url md5hex rcache head url detect).1 ≠ url →
      (∀ c ∈ registry, c.validate_url url = false) →
      ∀ i (hi : i < registry.length),
        (registry.get ⟨i, hi⟩).validate_url_fallback url = true →
        (∀ j (hj : j < registry.length), j < i →
          (registry.get ⟨j, hj⟩).validate_url_fallback url = false) →
        get_site_by_url registry md5hex rcache head url_validate url detect
          = some (registry.get ⟨i, hi⟩, url)) ∧
    ((∀ c ∈ registry,
        c.validate_url ((get_redirected_url md5hex rcache head url detect).1) = false ∧
        c.validate_url_fallback
            ((get_redirected_url md5hex rcache head url detect).1) = false ∧
        c.validate_url url = false ∧ c.validate_url_fallback url = false) →
      get_site_by_url registry md5hex rcache head url_validate url detect = none) := by
  refine ⟨?_, ?_, ?_, ?_, ?_, ?_⟩
  · intro hv
    unfold get_site_by_url
    rw [if_pos hv]
  · intro hv i hi hp hfirst
    have hcls : get_class_by_url registry
        ((get_redirected_url md5hex rcache head url detect).1)
        = some (registry.get ⟨i, hi⟩) :=
      find?_first _ registry i hi hp hfirst
    simp only [get_site_by_url, hcls]
    rw [if_neg (by simp [hv])]
  · intro hv hall i hi hp hfirst
    have hcls : get_class_by_url registry
        ((get_redirected_url md5hex rcache head url detect).1) = none :=
      List.find?_eq_none.mpr (fun c hc => by simp [hall c hc])
    have hfb : get_fallback_class_by_url registry
        ((get_redirected_url md5hex rcache head url detect).1)
        = some (registry.get ⟨i, hi⟩) :=
      find?_first _ registry i hi hp hfirst
    simp only [get_site_by_url, hcls, hfb]
    rw [if_neg (by simp [hv])]
  · intro hv hall hne i hi hp hfirst
    have hcls : get_class_by_url registry
        ((get_redirected_url md5hex rcache head url detect).1) = none :=
      List.find?_eq_none.mpr (fun c hc => by simp [(hall c hc).1])
    have hfb : get_fallback_class_by_url registry
        ((get_redirected_url md5hex rcache head url detect).1) = none :=
      List.find?_eq_none.mpr (fun c hc => by simp [(hall c hc).2])
    have horig : get_class_by_url registry url = some (registry.get ⟨i, hi⟩) :=
      find?_first _ registry i hi hp hfirst
    simp only [get_site_by_url, hcls, hfb, horig]
    rw [if_neg (by simp [hv]), if_neg (by simpa using hne)]
  · intro hv hall hne hallorig i hi hp hfirst
    have hcls : get_class_by_url registry
        ((get_redirected_url md5hex rcache head url detect).1) = none :=
      List.find?_eq_none.mpr (fun c hc => by simp [(hall c hc).1])
    have hfb : get_fallback_class_by_url registry
        ((get_redirected_url md5hex rcache head url detect).1) = none :=
      List.find?_eq_none.mpr (fun c hc => by simp [(hall c hc).2])
    have horig : get_class_by_url registry url = none :=
      List.find?_eq_none.mpr (fun c hc => by simp [hallorig c hc])
    have horigfb : get_fallback_class_by_url registry url
        = some (registry.get ⟨i, hi⟩) :=
      find?_first _ registry i hi hp hfirst
    simp only [get_site_by_url, hcls, hfb, horig, horigfb]
    rw [if_neg (by simp [hv]), if_neg (by simpa using hne)]
  · intro hall
    by_cases hv : (url == "" || !url_validate url) = true
    · unfold get_site_by_url
      rw [if_pos hv]
    · have hcls : get_class_by_url registry
          ((get_redirected_url md5hex rcache head url detect).1) = none :=
        List.find?_eq_none.mpr (fun c hc => by simp [(hall c hc).1])
      have hfb : get_fallback_class_by_url registry
          ((get_redirected_url md5hex rcache head url detect).1) = none :=
        List.find?_eq_none.mpr (fun c hc => by simp [(hall c hc).2.1])
      have horig : get_class_by_url registry url = none :=
        List.find?_eq_none.mpr (fun c hc => by simp [(hall c hc).2.2.1])
      have horigfb : get_fallback_class_by_url registry url = none :=
        List.find?_eq_none.mpr (fun c hc => by simp [(hall c hc).2.2.2])
      simp only [get_site_by_url, hcls, hfb, horig, horigfb]
      rw [if_neg hv]
      split <;> rfl

/-- The two registered adapters of the C8 witness. -/
def c8Site1 : SiteCls := ⟨fun u => u == "https://a", fun _ => false⟩

def c8Site2 : SiteCls := ⟨fun u => u == "https://b", fun _ => false⟩

/-- An adapter that claims `"https://b"` only through its fallback
predicate. -/
def c8Site3 : SiteCls := ⟨fun _ => false, fun u => u == "https://b"⟩

/-- C8 witness: the HEAD redirect canonicalizes `"https://b"` to
`"https://other"`, which no adapter claims.  With `c8Site2` registered,
the retry against the original URL matches its `validate_url`; with
`c8Site3` instead, only `validate_url_fallback` on the original URL
matches.  In both cases the adapter is returned constructed from the
original URL. -/
theorem get_site_by_url_resolution_order_witness :
    get_site_by_url [c8Site1, c8Site2] (fun s => s) []
        (fun _ => some "https://other") (fun _ => true) "https://b" true
      = some (c8Site2, "https://b") ∧
    get_site_by_url [c8Site1, c8Site3] (fun s => s) []
        (fun _ => some "https://other") (fun _ => true) "https://b" true
      = some (c8Site3, "https://b") := by
  constructor
  · exact (get_site_by_url_resolution_order [c8Site1, c8Site2] (fun s => s) []
      (fun _ => some "https://other") (fun _ => true) "https://b" true).2.2.2.1
      (by rfl)
      (by intro c hc
          rcases List.mem_cons.mp hc with rfl | hc
          · exact ⟨rfl, rfl⟩
          · rcases List.mem_cons.mp hc with rfl | hc
            · exact ⟨rfl, rfl⟩
            · cases hc)
      (by decide) 1 (by norm_num) (by rfl)
      (by intro j hj hj1
          have : j = 0 := by omega
          subst this
          rfl)
  · exact (get_site_by_url_resolution_order [c8Site1, c8Site3] (fun s => s) []
      (fun _ => some "https://other") (fun _ => true) "https://b" true).2.2.2.2.1
      (by rfl)
      (by intro c hc
          rcases List.mem_cons.mp hc with rfl | hc
          · exact ⟨rfl, rfl⟩
          · rcases List.mem_cons.mp hc with rfl | hc
            · exact ⟨rfl, rfl⟩
            · cases hc)
      (by decide)
      (by intro c hc
          rcases List.mem_cons.mp hc with rfl | hc
          · rfl
          · rcases List.mem_cons.mp hc with rfl | hc
            · rfl
            · cases hc)
      1 (by norm_num) (by rfl)
      (by intro j hj hj1
          have : j = 0 := by omega
          subst this
          rfl)

/-! ## C9: DoubanBook id/url round trip -/

theorem takeWhile_append_sat {α} (p : α → Bool) (ws cs : List α)
    (hws : ∀ c ∈ ws, p c = true) (hcs : ∀ c, cs.head? = some c → p c = false) :
    (ws ++ cs).takeWhile p = ws := by
  induction ws with
  | nil =>
    cases cs with
    | nil => rfl
    | cons c cs' => simp [List.takeWhile_cons, hcs c rfl]
  | cons w ws ih =>
    rw [List.cons_append, List.takeWhile_cons, hws w (List.mem_cons_self _ _), if_pos rfl]
    rw [ih (fun c hc => hws c (List.mem_cons_of_mem _ hc))]

theorem dropWhile_append_sat {α} (p : α → Bool) (ws cs : List α)
    (hws : ∀ c ∈ ws, p c = true) (hcs : ∀ c, cs.head? = some c → p c = false) :
    (ws ++ cs).dropWhile p = cs := by
  induction ws with
  | nil =>
    cases cs with
    | nil => rfl
    | cons c cs' => simp [List.dropWhile_cons, hcs c rfl]
  | cons w ws ih =>
    rw [List.cons_append, List.dropWhile_cons]
    rw [hws w (List.mem_cons_self _ _), if_pos rfl]
    exact ih (fun c hc => hws c (List.mem_cons_of_mem _ hc))

theorem matchToks_lits (s : List Char) (ts : List RTok) (cs : List Char)
    (acc : Option (List Char)) :
    matchToks (s.map RTok.lit ++ ts) (s ++ cs) acc = matchToks ts cs acc := by
  induction s with
  | nil => rfl
  | cons c s ih =>
    simp only [List.map_cons, List.cons_append, matchToks, if_true]
    exact ih

theorem matchToks_wordPlus (ts : List RTok) (ws cs : List Char) (acc : Option (List Char))
    (hne : ws ≠ []) (hws : ∀ c ∈ ws, isWordChar c = true)
    (hcs : ∀ c, cs.head? = some c → isWordChar c = false) :
    matchToks (RTok.wordPlus :: ts) (ws ++ cs) acc = matchToks ts cs acc := by
  have htake : (ws ++ cs).takeWhile isWordChar = ws := takeWhile_append_sat _ _ _ hws hcs
  have hdrop : (ws ++ cs).dropWhile isWordChar = cs := dropWhile_append_sat _ _ _ hws hcs
  simp only [matchToks, htake, hdrop]
  rw [if_neg (by simp [List.isEmpty_iff, hne])]

theorem matchToks_digits (ts : List RTok) (ds cs : List Char) (acc : Option (List Char))
    (hne : ds ≠ []) (hds : ∀ c ∈ ds, c.isDigit = true)
    (hcs : ∀ c, cs.head? = some c → c.isDigit = false) :
    matchToks (RTok.digitsGroup :: ts) (ds ++ cs) acc = matchToks ts cs (some ds) := by
  have htake : (ds ++ cs).takeWhile Char.isDigit = ds := takeWhile_append_sat _ _ _ hds hcs
  have hdrop : (ds ++ cs).dropWhile Char.isDigit = cs := dropWhile_append_sat _ _ _ hds hcs
  simp only [matchToks, htake, hdrop]
  rw [if_neg (by simp [List.isEmpty_iff, hne])]

theorem str_data_append (s t : String) : (s ++ t).data = s.data ++ t.data := by
  cases s
  cases t
  rfl

theorem string_mk_data (s : String) : String.mk s.data = s := by
  cases s
  rfl

/-- C9: for every non-empty decimal string `v`, `id_to_url v` is a URL the
adapter's own patterns accept, and `url_to_id` recovers exactly `v`. -/
theorem douban_book_roundtrip (v : String) (hne : v ≠ "")
    (hdig : ∀ c ∈ v.data, c.isDigit = true) :
    DoubanBook.validate_url (DoubanBook.id_to_url v) = true ∧
    DoubanBook.url_to_id (DoubanBook.id_to_url v) = some v := by
  have hvne : v.data ≠ [] := fun h => hne (String.ext (h.trans rfl))
  have hsplit : (DoubanBook.id_to_url v).toList
      = "https".toList ++ ("://book.douban.com/subject/".toList ++ (v.data ++ ['/'])) := by
    show (("https://book.douban.com/subject/" ++ v) ++ "/").data = _
    rw [str_data_append, str_data_append]
    rw [show ("https://book.douban.com/subject/" : String).data
      = "https".toList ++ "://book.douban.com/subject/".toList from rfl]
    simp [List.append_assoc]
  have hp1 : matchToks doubanBookPattern1 ((DoubanBook.id_to_url v).toList) none
      = some (some v.data) := by
    rw [hsplit]
    unfold doubanBookPattern1 lits
    rw [matchToks_wordPlus _ _ _ _ (by decide) (by decide) ?hcs₁]
    case hcs₁ =>
      intro c hc
      rw [show ("://book.douban.com/subject/".toList
        ++ (v.data ++ ['/'])).head? = some ':' from rfl] at hc
      cases hc
      decide
    rw [matchToks_lits "://book.douban.com/subject/".toList _ _ none]
    rw [show v.data ++ ['/'] = v.data ++ '/' :: [] from rfl]
    rw [matchToks_digits _ _ _ _ hvne hdig ?hcs₂]
    case hcs₂ =>
      intro c hc
      rw [show (('/' : Char) :: []).head? = some '/' from rfl] at hc
      cases hc
      decide
    rfl
  have hfirst : firstPatternMatch doubanBookUrlPatterns (DoubanBook.id_to_url v)
      = some (some v.data) := by
    simp only [doubanBookUrlPatterns, firstPatternMatch, hp1]
  constructor
  · simp only [DoubanBook.validate_url, hfirst, Option.isSome_some]
  · simp only [DoubanBook.url_to_id, hfirst, string_mk_data]

/-- C9 witness: the round trip at the concrete identifier `"1234567"`. -/
theorem douban_book_roundtrip_witness :
    DoubanBook.validate_url (DoubanBook.id_to_url "1234567") = true ∧
    DoubanBook.url_to_id (DoubanBook.id_to_url "1234567") = some "1234567" :=
  douban_book_roundtrip "1234567" (by decide) (by decide)

end Neodb
